import Mathlib

/-!
Verification of the AI math tutor backend (question workflow, AI solver
fallback chain, prose-to-structure synthesis, cache adapter, bulk ingest).

The development shallowly embeds the TypeScript sources:
  * `src/infrastructure/ai.ts`   — `AIService` (solver fallback chain,
    `validateAIResponse`, `getMockResponse`, `createCleanSteps`,
    `extractFinalAnswerFromSteps`, `isAlgebraicEquation`);
  * `src/services/questionService.ts` — `submitQuestion`, `getUserHistory`,
    `bulkIngestQuestions`;
  * the Redis cache adapter — `get`/`set` with the `expires_at` envelope;
  * the answer repository — `createAnswer` (a plain INSERT, no status update).

JavaScript numbers are modeled as rationals (ℚ): every numeric value the
claims touch is produced by integer arithmetic or by an exact division, where
float and rational arithmetic agree.  Asynchronous calls to the database,
cache and model providers are modeled by environment records that fix each
call's outcome; a thrown JS exception is an `Except.error`.
-/

namespace MathTutor

/-! ## JSON values

The payloads returned by the cloud and local model providers are arbitrary
parsed JSON (`JSON.parse`).  Numbers carry rationals. -/

inductive Json where
  | null
  | bool (b : Bool)
  | num (q : ℚ)
  | str (s : String)
  | arr (elems : List Json)
  | obj (fields : List (String × Json))

/-- First binding of a key in an object's field list. -/
def lookupField : List (String × Json) → String → Option Json
  | [], _ => none
  | (k, v) :: rest, key => if k = key then some v else lookupField rest key

/-- Property access `j.k` as the validator uses it: a field of an object,
`none` (JS `undefined`) otherwise.  The validator only dereferences values it
has short-circuited on, so the JS `TypeError` on `null.k` is unreachable. -/
def Json.getField : Json → String → Option Json
  | .obj fields, key => lookupField fields key
  | _, _ => none

/-- JS truthiness of a parsed JSON value (`response && ...`). -/
def Json.truthy : Json → Bool
  | .null => false
  | .bool b => b
  | .num q => decide (q ≠ 0)
  | .str s => decide (s ≠ "")
  | .arr _ => true
  | .obj _ => true

/-- `typeof v === 'string'` on an optional field access. -/
def isStrField : Option Json → Bool
  | some (.str _) => true
  | _ => false

/-- `typeof v === 'number'` on an optional field access. -/
def isNumField : Option Json → Bool
  | some (.num _) => true
  | _ => false

/-! ## The structured-solution shape (`types.ts`) -/

structure AIStep where
  step_number : ℚ
  description : String
  mathematical_expression : Option String
  reasoning : String
deriving DecidableEq, Repr

structure OpenAIResponse where
  steps : List AIStep
  final_answer : String
  explanation : String
  confidence_score : ℚ
  ai_model_used : String
deriving DecidableEq, Repr

/-! ## Schema validation (`ai.ts` lines 235-250) -/

/-- One conjunct of `validateAIResponse`: `steps.every(step => ...)`. -/
def validStepField (step : Json) : Bool :=
  isNumField (step.getField "step_number") &&
  isStrField (step.getField "description") &&
  isStrField (step.getField "reasoning")

/-- `validateAIResponse` from `ai.ts`: truthiness of the payload, an array
`steps` of positive length, string `final_answer` and `explanation`, numeric
`confidence_score`, string `ai_model_used`, and per-step field typing. -/
def validateAIResponse (response : Json) : Bool :=
  response.truthy &&
  (match response.getField "steps" with
   | some (.arr steps) => decide (steps.length > 0) && steps.all validStepField
   | _ => false) &&
  isStrField (response.getField "final_answer") &&
  isStrField (response.getField "explanation") &&
  isNumField (response.getField "confidence_score") &&
  isStrField (response.getField "ai_model_used")

/-- Reading one step out of a validated payload (the parsed object is used
as-is by the service).  The defaults on the wildcard arms are unreachable for
payloads that passed `validateAIResponse`. -/
def decodeStep (j : Json) : AIStep :=
  { step_number := match j.getField "step_number" with
      | some (.num q) => q
      | _ => 0
  , description := match j.getField "description" with
      | some (.str s) => s
      | _ => ""
  , mathematical_expression := match j.getField "mathematical_expression" with
      | some (.str s) => some s
      | _ => none
  , reasoning := match j.getField "reasoning" with
      | some (.str s) => s
      | _ => "" }

/-- The parsed payload viewed as an `OpenAIResponse` (the service returns the
parsed object spread with an overriding `ai_model_used`). -/
def decodeResponse (j : Json) : OpenAIResponse :=
  { steps := (match j.getField "steps" with
      | some (.arr steps) => steps
      | _ => []).map decodeStep
  , final_answer := match j.getField "final_answer" with
      | some (.str s) => s
      | _ => ""
  , explanation := match j.getField "explanation" with
      | some (.str s) => s
      | _ => ""
  , confidence_score := match j.getField "confidence_score" with
      | some (.num q) => q
      | _ => 0
  , ai_model_used := match j.getField "ai_model_used" with
      | some (.str s) => s
      | _ => "" }

/-! ## String scanning utilities

`String.prototype.includes`, `toLowerCase`, and the handful of regular
expressions the solver uses are modeled as deterministic scanners over
character lists.  Each regex in the source is simple enough that greedy
matching with leftmost start is its exact semantics (every quantified class
is disjoint from the character that must follow it, so backtracking never
changes the outcome). -/

/-- Substring test: `haystack.includes(needle)`. -/
def strIncludes (haystack needle : String) : Bool :=
  go needle.data haystack.data
where
  go (needle : List Char) : List Char → Bool
    | [] => needle.isEmpty
    | c :: rest => needle.isPrefixOf (c :: rest) || go needle rest

/-- `text.toLowerCase()` (ASCII, which is all the keyword tables use). -/
def jsToLower (s : String) : String :=
  String.mk (s.data.map Char.toLower)

def isSpaceChar (c : Char) : Bool := c.isWhitespace

/-- `text.trim()`: strip whitespace from both ends. -/
def jsTrim (s : String) : String :=
  String.mk (((s.data.dropWhile isSpaceChar).reverse.dropWhile isSpaceChar).reverse)

/-- Split a list at the end of the maximal prefix satisfying `p`
(the deterministic reading of a greedy `p*`). -/
def takeWhileSplit (p : Char → Bool) (l : List Char) : List Char × List Char :=
  (l.takeWhile p, l.dropWhile p)

/-- Greedy `\d+`: the maximal nonempty digit prefix, or `none`. -/
def takeDigits1 (l : List Char) : Option (List Char × List Char) :=
  match takeWhileSplit Char.isDigit l with
  | (ds, rest) => if ds.isEmpty then none else some (ds, rest)

/-- Try a position matcher at every start position, leftmost first (the
anchored-at-each-offset semantics of `String.prototype.match`). -/
def findFirstMatch {α : Type} (matcher : List Char → Option α) : List Char → Option α
  | [] => matcher []
  | c :: rest =>
    match matcher (c :: rest) with
    | some a => some a
    | none => findFirstMatch matcher rest

/-- `/(\d+[a-zA-Z]\s*\+\s*\d+\s*=\s*\d+)/` anchored at the given position;
returns the matched characters. -/
def matchEquationAt (l : List Char) : Option (List Char) :=
  match takeDigits1 l with
  | none => none
  | some (d1, r1) =>
    match r1 with
    | [] => none
    | v :: r2 =>
      if v.isAlpha then
        match takeWhileSplit isSpaceChar r2 with
        | (s1, r3) =>
          match r3 with
          | '+' :: r4 =>
            match takeWhileSplit isSpaceChar r4 with
            | (s2, r5) =>
              match takeDigits1 r5 with
              | none => none
              | some (d2, r6) =>
                match takeWhileSplit isSpaceChar r6 with
                | (s3, r7) =>
                  match r7 with
                  | '=' :: r8 =>
                    match takeWhileSplit isSpaceChar r8 with
                    | (s4, r9) =>
                      match takeDigits1 r9 with
                      | none => none
                      | some (d3, _) =>
                        some (d1 ++ v :: (s1 ++ '+' :: (s2 ++ d2 ++ s3 ++ '=' :: (s4 ++ d3))))
                  | _ => none
          | _ => none
      else none

/-- `/(\d+)[a-zA-Z]/` anchored; returns the captured digits. -/
def matchCoefAt (l : List Char) : Option (List Char) :=
  match takeDigits1 l with
  | some (d, c :: _) => if c.isAlpha then some d else none
  | _ => none

/-- `/[+\-]\s*(\d+)/` anchored; returns the captured digits. -/
def matchConstAt (l : List Char) : Option (List Char) :=
  match l with
  | [] => none
  | c :: rest =>
    if c = '+' || c = '-' then
      match takeWhileSplit isSpaceChar rest with
      | (_, r2) =>
        match takeDigits1 r2 with
        | some (d, _) => some d
        | none => none
    else none

/-- `/=\s*(\d+)/` anchored; returns the captured digits. -/
def matchResultAt (l : List Char) : Option (List Char) :=
  match l with
  | [] => none
  | c :: rest =>
    if c = '=' then
      match takeWhileSplit isSpaceChar rest with
      | (_, r2) =>
        match takeDigits1 r2 with
        | some (d, _) => some d
        | none => none
    else none

/-- The character class `[0-9.-]`. -/
def isNumChar (c : Char) : Bool := c.isDigit || c = '.' || c = '-'

/-- `/([0-9.-]+)/` anchored; returns the captured run. -/
def matchNumRunAt (l : List Char) : Option (List Char) :=
  match takeWhileSplit isNumChar l with
  | (d, _) => if d.isEmpty then none else some d

/-- `/x\s*=\s*([0-9.-]+)/i` anchored; returns the captured run. -/
def matchXEqAt (l : List Char) : Option (List Char) :=
  match l with
  | [] => none
  | c :: rest =>
    if c = 'x' || c = 'X' then
      match takeWhileSplit isSpaceChar rest with
      | (_, r2) =>
        match r2 with
        | '=' :: r3 =>
          match takeWhileSplit isSpaceChar r3 with
          | (_, r4) => matchNumRunAt r4
        | _ => none
    else none

/-- `parseInt` on a captured digit run. -/
def digitsToNat (l : List Char) : Nat :=
  l.foldl (fun n c => n * 10 + (c.toNat - 48)) 0

/-! ## JS number printing

Template literals such as `` `${variable} = ${finalAnswer}` `` print integral
JS numbers in plain decimal.  `natDigits`/`intRepr` model that printing; the
one non-integral case (`jsNumToString` on a quotient that does not divide
exactly, where JS would print float decimals) is rendered distinctly and is
outside every theorem below, which all restrict to exact division. -/

def digitChar (d : Nat) : Char :=
  match d with
  | 0 => '0' | 1 => '1' | 2 => '2' | 3 => '3' | 4 => '4'
  | 5 => '5' | 6 => '6' | 7 => '7' | 8 => '8' | _ => '9'

/-- Decimal digits, most significant first; `fuel ≥ n` suffices, and the
fuel-out arm is unreachable for `fuel = n`. -/
def natDigitsGo (fuel n : Nat) : List Char :=
  match fuel with
  | 0 => [digitChar (n % 10)]
  | fuel + 1 =>
    if n < 10 then [digitChar n]
    else natDigitsGo fuel (n / 10) ++ [digitChar (n % 10)]

def natDigits (n : Nat) : List Char := natDigitsGo n n

def natRepr (n : Nat) : String := String.mk (natDigits n)

def intRepr (n : Int) : String :=
  if n < 0 then "-" ++ natRepr n.natAbs else natRepr n.natAbs

/-- JS number-to-string restricted to the values the solver prints: exact on
integral values; non-integral values (never reached by the theorems below)
are tagged in rational notation. -/
def jsNumToString (q : ℚ) : String :=
  if q.den = 1 then intRepr q.num else intRepr q.num ++ "/" ++ natRepr q.den

/-! ## The offline mock backend (`ai.ts` lines 252-308, 476-480) -/

/-- `isAlgebraicEquation`: any of the keyword substrings in the lowercased
question. -/
def isAlgebraicEquation (question : String) : Bool :=
  let lowerQuestion := jsToLower question
  ["solve for", "x =", "find x", "equation", "=", "x", "y", "variable"].any
    (fun keyword => strIncludes lowerQuestion keyword)

/-- `getMockResponse`: the deterministic offline solution.  Three fixed steps
on either branch; confidence 0.85 on the algebra branch, 0.75 otherwise. -/
def getMockResponse (question questionType : String) : OpenAIResponse :=
  if isAlgebraicEquation question then
    { steps :=
        [ { step_number := 1
          , description := "Identify the equation structure"
          , mathematical_expression := some question
          , reasoning := "We start by examining the given equation to understand what we need to solve for." }
        , { step_number := 2
          , description := "Isolate the variable term"
          , mathematical_expression := some "Apply inverse operations"
          , reasoning := "Use inverse operations to isolate the variable on one side of the equation." }
        , { step_number := 3
          , description := "Solve for the variable"
          , mathematical_expression := some "Simplify to get the final answer"
          , reasoning := "Complete the calculation to find the value of the unknown variable." } ]
    , final_answer := "Solution depends on the specific equation"
    , explanation := "This is a " ++ questionType ++ " problem that requires systematic application of algebraic principles to isolate the variable."
    , confidence_score := 85 / 100
    , ai_model_used := "mock" }
  else
    { steps :=
        [ { step_number := 1
          , description := "Analyze the problem"
          , mathematical_expression := some question
          , reasoning := "First, we carefully read and understand what the problem is asking us to find." }
        , { step_number := 2
          , description := "Apply relevant mathematical principles"
          , mathematical_expression := some "Use appropriate formulas and methods"
          , reasoning := "For this " ++ questionType ++ " problem, we apply the relevant mathematical concepts and formulas." }
        , { step_number := 3
          , description := "Calculate the result"
          , mathematical_expression := some "Perform the necessary calculations"
          , reasoning := "We carefully work through the mathematical operations to arrive at our answer." } ]
    , final_answer := "Answer will depend on the specific problem"
    , explanation := "This " ++ questionType ++ " problem requires careful analysis and application of mathematical principles. Since this is a demo response, please use a real OpenAI API key for actual problem-solving."
    , confidence_score := 75 / 100
    , ai_model_used := "mock" }

/-! ## Prose-to-structure synthesis (`ai.ts` lines 310-474) -/

/-- The keyword test guarding the algebra branch of `createCleanSteps`. -/
def hasSolveKeyword (question : String) : Bool :=
  strIncludes question "Solve for x" || strIncludes question "Solve for y" ||
  strIncludes question "Find the value of" || strIncludes question "Solve "

/-- The keyword test guarding the derivative branch of `createCleanSteps`. -/
def hasDerivKeyword (question : String) : Bool :=
  strIncludes question "derivative" || strIncludes question "differentiate"

/-- The three algebra steps built from the parsed coefficient, constant and
result digits plus the matched equation text and the variable letter. -/
def algebraSteps (equation varName : String) (coefD constD resD : List Char) :
    List AIStep :=
  let coefficient := digitsToNat coefD
  let constant := digitsToNat constD
  let result := digitsToNat resD
  let operation : String := if strIncludes equation "+" then "+" else "-"
  let newResult : Int :=
    if operation = "+" then (result : Int) - (constant : Int)
    else (result : Int) + (constant : Int)
  let finalAnswer : ℚ := (newResult : ℚ) / (coefficient : ℚ)
  [ { step_number := 1
    , description := "Subtract " ++ natRepr constant ++ " from both sides to isolate the variable term"
    , mathematical_expression := some (equation ++ " → " ++ natRepr coefficient ++ varName ++ " = " ++ natRepr result ++ " " ++ (if operation = "+" then "-" else "+") ++ " " ++ natRepr constant)
    , reasoning := "We subtract " ++ natRepr constant ++ " from both sides to get rid of the " ++ operation ++ natRepr constant ++ " on the left side" }
  , { step_number := 2
    , description := "Simplify both sides of the equation"
    , mathematical_expression := some (natRepr coefficient ++ varName ++ " = " ++ intRepr newResult)
    , reasoning := "After subtracting " ++ natRepr constant ++ ", we get " ++ natRepr coefficient ++ varName ++ " = " ++ intRepr newResult }
  , { step_number := 3
    , description := "Divide both sides by " ++ natRepr coefficient ++ " to solve for " ++ varName
    , mathematical_expression := some (varName ++ " = " ++ jsNumToString finalAnswer)
    , reasoning := "We divide by " ++ natRepr coefficient ++ " to get " ++ varName ++ " by itself" } ]

/-- `createCleanSteps`.  The first parameter (the cleaned provider text) is
received but never read by the source function, which synthesizes all steps
from the question alone; it is kept for signature fidelity. -/
def createCleanSteps (cleanText question : String) : List AIStep :=
  if hasSolveKeyword question then
    match findFirstMatch matchEquationAt question.data with
    | none => []
    | some eqChars =>
      let varName : String :=
        match question.data.find? Char.isAlpha with
        | some c => String.mk [c]
        | none => "x"
      match findFirstMatch matchCoefAt eqChars, findFirstMatch matchConstAt eqChars,
            findFirstMatch matchResultAt eqChars with
      | some coefD, some constD, some resD =>
        algebraSteps (String.mk eqChars) varName coefD constD resD
      | _, _, _ => []
  else if hasDerivKeyword question then
    [ { step_number := 1
      , description := "Apply the power rule to each term"
      , mathematical_expression := some "d/dx[x²] + d/dx[3x] + d/dx[-5]"
      , reasoning := "We find the derivative of each term separately using the power rule" }
    , { step_number := 2
      , description := "Calculate the derivative of x²"
      , mathematical_expression := some "d/dx[x²] = 2x"
      , reasoning := "Using the power rule: d/dx[x^n] = nx^(n-1), so d/dx[x²] = 2x" }
    , { step_number := 3
      , description := "Calculate the derivative of 3x"
      , mathematical_expression := some "d/dx[3x] = 3"
      , reasoning := "The derivative of a constant times x is just the constant" }
    , { step_number := 4
      , description := "Calculate the derivative of the constant"
      , mathematical_expression := some "d/dx[-5] = 0"
      , reasoning := "The derivative of any constant is 0" }
    , { step_number := 5
      , description := "Combine all the derivatives"
      , mathematical_expression := some "f'(x) = 2x + 3 + 0 = 2x + 3"
      , reasoning := "We add all the derivatives together to get the final answer" } ]
  else
    [ { step_number := 1
      , description := "Analyze the given problem"
      , mathematical_expression := some question
      , reasoning := "First, we examine the problem to understand what needs to be solved" }
    , { step_number := 2
      , description := "Apply the appropriate mathematical operations"
      , mathematical_expression := some "Use the correct formula or method"
      , reasoning := "We apply the necessary mathematical steps to solve the problem" } ]

/-- The two regex probes of `extractFinalAnswerFromSteps` on the last step's
expression: `x = <run>` first (capture must be truthy, i.e. nonempty), then
any `[0-9.-]+` run. -/
def extractExprAnswer (mathExpression : String) : Option String :=
  match findFirstMatch matchXEqAt mathExpression.data with
  | some cap =>
    if cap.isEmpty then (findFirstMatch matchNumRunAt mathExpression.data).map String.mk
    else some (String.mk cap)
  | none => (findFirstMatch matchNumRunAt mathExpression.data).map String.mk

/-- `extractFinalAnswerFromSteps`: probe the last step's expression, then the
hardcoded question table, then the placeholder. -/
def extractFinalAnswerFromSteps (steps : List AIStep) (question : String) : String :=
  let stepAnswer : Option String :=
    match steps.getLast? with
    | none => none
    | some lastStep => extractExprAnswer (lastStep.mathematical_expression.getD "")
  match stepAnswer with
  | some answer => answer
  | none =>
    if strIncludes question "3x - 7 = 14" then "7"
    else if strIncludes question "2y + 8 = 20" then "6"
    else if strIncludes question "2x + 5 = 13" then "4"
    else if strIncludes question "f(x) = x² + 3x - 5" then "2x + 3"
    else "See solution steps"

/-- `convertTextToStructuredResponse`.  The source pipes `text` through
`cleanResponseText` first; since `createCleanSteps` never reads that argument
the cleaning pass is behaviorally inert and the raw text is passed through. -/
def convertTextToStructuredResponse (text question questionType ollamaModel : String) :
    OpenAIResponse :=
  let steps := createCleanSteps text question
  let finalAnswer := extractFinalAnswerFromSteps steps question
  { steps := steps
  , final_answer := finalAnswer
  , explanation := "Solution to the " ++ questionType ++ " problem: " ++ question
  , confidence_score := 8 / 10
  , ai_model_used := ollamaModel }

/-! ## The solver fallback chain (`ai.ts` lines 37-58, 60-233) -/

/-- What the cloud provider call produces before validation: a thrown error
(network failure, missing content, or a `JSON.parse` failure) or a parsed
JSON payload. -/
inductive CloudOutcome where
  | failure
  | payload (j : Json)

/-- What the local provider call produces: a thrown error, a parsed JSON
payload, or raw prose (a body `JSON.parse` rejects). -/
inductive LocalOutcome where
  | failure
  | jsonPayload (j : Json)
  | prose (text : String)

structure AIEnv where
  openaiConfigured : Bool
  cloud : CloudOutcome
  localResp : LocalOutcome
  ollamaModel : String

/-- `validateAIResponse` applied to the object built by
`convertTextToStructuredResponse`: every `typeof` conjunct holds by
construction on the typed value, leaving the step-list nonemptiness check. -/
def validateStructuredResponse (r : OpenAIResponse) : Bool :=
  decide (r.steps.length > 0)

/-- `solveWithOpenAI`: `some` on a validated payload (with `ai_model_used`
overridden to `gpt-4`), `none` where the source throws. -/
def solveWithOpenAI (env : AIEnv) : Option OpenAIResponse :=
  match env.cloud with
  | .failure => none
  | .payload j =>
    if validateAIResponse j then some { decodeResponse j with ai_model_used := "gpt-4" }
    else none

/-- `solveWithOllama`: a validated JSON payload is passed through; prose is
synthesized and re-validated; `none` where the source throws. -/
def solveWithOllama (env : AIEnv) (question questionType : String) : Option OpenAIResponse :=
  match env.localResp with
  | .failure => none
  | .jsonPayload j =>
    if validateAIResponse j then some { decodeResponse j with ai_model_used := env.ollamaModel }
    else none
  | .prose text =>
    let parsedResponse := convertTextToStructuredResponse text question questionType env.ollamaModel
    if validateStructuredResponse parsedResponse then
      some { parsedResponse with ai_model_used := env.ollamaModel }
    else none

/-- `solveMathProblem`: cloud first when configured, then the local provider,
then the offline mock.  Total — the mock path cannot fail. -/
def solveMathProblem (env : AIEnv) (question questionType : String) : OpenAIResponse :=
  let viaOllama : OpenAIResponse :=
    match solveWithOllama env question questionType with
    | some r => r
    | none => getMockResponse question questionType
  if env.openaiConfigured then
    match solveWithOpenAI env with
    | some r => r
    | none => viaOllama
  else viaOllama

/-! ## Rows, responses and the persistent-store state (`types.ts`,
`questionRepository.ts`, `answerRepository.ts`)

The store is a record of rows; each repository call either appends a row,
rewrites statuses, or reports that the INSERT returned no row (`null`). -/

structure QuestionRow where
  id : String
  user_id : String
  question_text : String
  question_type : String
  status : String
deriving DecidableEq, Repr

structure AnswerRow where
  id : String
  question_id : String
  steps : List AIStep
  final_answer : String
  explanation : String
  processing_time_ms : Nat
  ai_model_used : String
  created_at : String
deriving DecidableEq, Repr

structure AnswerResponse where
  id : String
  question : String
  question_type : String
  status : String
  steps : List AIStep
  final_answer : String
  explanation : String
  created_at : String
  processing_time_ms : Nat
deriving DecidableEq, Repr

structure QuestionResponse where
  id : String
  status : String
  message : Option String
deriving DecidableEq, Repr

structure Db where
  users : List String
  questions : List QuestionRow
  answers : List AnswerRow
deriving DecidableEq, Repr

/-- `questionRepository.updateQuestionStatus`: rewrite the status of every
row with the given id. -/
def Db.updateQuestionStatus (db : Db) (questionId status : String) : Db :=
  { db with questions :=
      db.questions.map (fun q => if q.id = questionId then { q with status := status } else q) }

def Db.insertQuestion (db : Db) (row : QuestionRow) : Db :=
  { db with questions := db.questions ++ [row] }

def Db.insertAnswer (db : Db) (row : AnswerRow) : Db :=
  { db with answers := db.answers ++ [row] }

/-! ## Cache keys (`redis.ts` lines 273-283)

The source encodes the lowercased, trimmed question in base64.  Base64 over
the text's bytes is injective, so two questions collide exactly when their
lowercased trimmed forms are equal; the encoding is representation-only and
is omitted, preserving key-equality semantics. -/

def generateQuestionCacheKey (questionText : String) : String :=
  "question:" ++ jsTrim (jsToLower questionText)

def generateUserHistoryCacheKey (userId : String) (page : Nat) : String :=
  "user:" ++ userId ++ ":history:" ++ natRepr page

/-! ## `submitQuestion` (`questionService.ts` lines 18-133) -/

/-- The union return type `QuestionResponse | AnswerResponse`. -/
inductive SubmitResult where
  | answer (a : AnswerResponse)
  | pending (q : QuestionResponse)
deriving DecidableEq, Repr

/-- The outcomes of the awaited collaborator calls a single submission makes:
what the question-text cache holds, whether each INSERT returns a row, the
fresh row ids, the solver call's outcome and measured duration, and the
current time.  `solverResult` is an `Except` so that a solver that throws
(defended against even though `solveMathProblem` is total) is expressible. -/
structure ServiceEnv where
  cacheGet : String → Option AnswerResponse
  createQuestionReturnsRow : Bool
  freshQuestionId : String
  freshAnswerId : String
  answerInsertReturnsRow : Bool
  solverResult : Except String OpenAIResponse
  solveDurationMs : Nat
  nowIso : String

structure SubmitOutcome where
  result : Except String SubmitResult
  db : Db
  solverCalls : Nat
  cacheWrites : List (String × AnswerResponse × Nat)
deriving Repr

/-- The informational message of the processing placeholder. -/
def pendingMessage : String :=
  "Question submitted successfully. Processing may take a moment."

/-- `submitQuestion`.  An `Except.error` is an exception crossing the
workflow boundary; `solverCalls` counts invocations of the solver;
`cacheWrites` records `redisService.set` calls as (key, value, TTL). -/
def submitQuestion (env : ServiceEnv) (db : Db) (question userId questionType : String) :
    SubmitOutcome :=
  if ¬ db.users.contains userId then
    { result := .error "User not found", db := db, solverCalls := 0, cacheWrites := [] }
  else
    let cacheKey := generateQuestionCacheKey question
    match env.cacheGet cacheKey with
    | some cachedAnswer =>
      if env.createQuestionReturnsRow then
        let questionRecord : QuestionRow :=
          { id := env.freshQuestionId, user_id := userId, question_text := question
          , question_type := questionType, status := "pending" }
        let answerRow : AnswerRow :=
          { id := env.freshAnswerId, question_id := questionRecord.id
          , steps := cachedAnswer.steps, final_answer := cachedAnswer.final_answer
          , explanation := cachedAnswer.explanation
          , processing_time_ms := cachedAnswer.processing_time_ms
          , ai_model_used := "gpt-4", created_at := env.nowIso }
        { result := .ok (.answer { cachedAnswer with
            id := questionRecord.id, created_at := env.nowIso })
        , db := (db.insertQuestion questionRecord).insertAnswer answerRow
        , solverCalls := 0, cacheWrites := [] }
      else
        { result := .ok (.answer { cachedAnswer with id := "cached", created_at := env.nowIso })
        , db := db, solverCalls := 0, cacheWrites := [] }
    | none =>
      if ¬ env.createQuestionReturnsRow then
        { result := .error "Failed to create question", db := db
        , solverCalls := 0, cacheWrites := [] }
      else
        let questionRecord : QuestionRow :=
          { id := env.freshQuestionId, user_id := userId, question_text := question
          , question_type := questionType, status := "pending" }
        let db1 := (db.insertQuestion questionRecord).updateQuestionStatus
          questionRecord.id "processing"
        match env.solverResult with
        | .error _ =>
          { result := .ok (.pending
              { id := questionRecord.id, status := "processing", message := some pendingMessage })
          , db := db1.updateQuestionStatus questionRecord.id "failed"
          , solverCalls := 1, cacheWrites := [] }
        | .ok aiResponse =>
          let processingTime := env.solveDurationMs
          if env.answerInsertReturnsRow then
            let answerRecord : AnswerRow :=
              { id := env.freshAnswerId, question_id := questionRecord.id
              , steps := aiResponse.steps, final_answer := aiResponse.final_answer
              , explanation := aiResponse.explanation, processing_time_ms := processingTime
              , ai_model_used := aiResponse.ai_model_used, created_at := env.nowIso }
            let answerResponse : AnswerResponse :=
              { id := questionRecord.id, question := question, question_type := questionType
              , status := "completed", steps := aiResponse.steps
              , final_answer := aiResponse.final_answer, explanation := aiResponse.explanation
              , created_at := answerRecord.created_at, processing_time_ms := processingTime }
            { result := .ok (.answer answerResponse)
            , db := (db1.insertAnswer answerRecord).updateQuestionStatus
                questionRecord.id "completed"
            , solverCalls := 1, cacheWrites := [(cacheKey, answerResponse, 3600)] }
          else
            { result := .ok (.pending
                { id := questionRecord.id, status := "processing", message := some pendingMessage })
            , db := db1, solverCalls := 1, cacheWrites := [] }

/-! ## `getUserHistory` (`questionService.ts` lines 169-199) -/

structure HistoryAnswer where
  steps : List AIStep
  final_answer : String
  explanation : String
deriving DecidableEq, Repr

structure HistoryItem where
  id : String
  question_text : String
  question_type : String
  status : String
  created_at : String
  answer : Option HistoryAnswer
deriving DecidableEq, Repr

structure UserHistory where
  user_id : String
  questions : List HistoryItem
  total_count : Nat
deriving DecidableEq, Repr

structure HistoryEnv where
  historyCacheGet : String → Option UserHistory
  dbHistory : String → Nat → Nat → Option UserHistory

structure HistoryOutcome where
  result : Except String (Option UserHistory)
  userLookups : Nat
  cacheWrites : List (String × UserHistory × Nat)

/-- `getUserHistory`: cache first; only a cache miss consults the user store
(counted by `userLookups`) and the question repository. -/
def getUserHistory (env : HistoryEnv) (users : List String) (userId : String)
    (page limit : Nat) : HistoryOutcome :=
  let cacheKey := generateUserHistoryCacheKey userId page
  match env.historyCacheGet cacheKey with
  | some cachedHistory =>
    { result := .ok (some cachedHistory), userLookups := 0, cacheWrites := [] }
  | none =>
    if ¬ users.contains userId then
      { result := .error "User not found", userLookups := 1, cacheWrites := [] }
    else
      match env.dbHistory userId page limit with
      | some history =>
        { result := .ok (some history), userLookups := 1
        , cacheWrites := [(cacheKey, history, 300)] }
      | none => { result := .ok none, userLookups := 1, cacheWrites := [] }

/-! ## `bulkIngestQuestions` (`questionService.ts` lines 259-359) -/

structure BulkItem where
  question : String
  user_id : String
  question_type : String
deriving DecidableEq, Repr

structure BulkIngestResult where
  question : String
  success : Bool
  question_id : Option String
  error : Option String
  processing_time_ms : Nat
deriving DecidableEq, Repr

structure BulkIngestResponse where
  total_questions : Nat
  successful : Nat
  failed : Nat
  results : List BulkIngestResult
  processing_time_ms : Nat
deriving DecidableEq, Repr

/-- Per-item collaborator outcomes for the bulk path, indexed by the item's
position in the batch. -/
structure BulkEnv where
  users : List String
  itemCreateReturnsRow : Nat → Bool
  itemQuestionId : Nat → String
  itemSolverResult : Nat → Except String OpenAIResponse
  itemElapsedMs : Nat → Nat
  totalElapsedMs : Nat

/-- One item of the bulk batch: user check, question INSERT, solver call,
answer INSERT; any thrown step is caught locally and becomes a failed result
row carrying the error message and the item's elapsed time, with no question
id. -/
def processBulkItem (env : BulkEnv) (i : Nat) (item : BulkItem) : BulkIngestResult :=
  let failWith (msg : String) : BulkIngestResult :=
    { question := item.question, success := false, question_id := none
    , error := some msg, processing_time_ms := env.itemElapsedMs i }
  if ¬ env.users.contains item.user_id then failWith "User not found"
  else if ¬ env.itemCreateReturnsRow i then failWith "Failed to create question"
  else
    match env.itemSolverResult i with
    | .error msg => failWith msg
    | .ok _ =>
      { question := item.question, success := true
      , question_id := some (env.itemQuestionId i), error := none
      , processing_time_ms := env.itemElapsedMs i }

/-- The in-order result rows of the batch, item `k` processed at index
`start + k`. -/
def bulkResults (env : BulkEnv) (start : Nat) : List BulkItem → List BulkIngestResult
  | [] => []
  | item :: rest => processBulkItem env start item :: bulkResults env (start + 1) rest

/-- `bulkIngestQuestions`: every item is processed; the counters are the
number of fulfilled and rejected items (each item settles exactly one way,
and the single-threaded increments cannot interleave). -/
def bulkIngestQuestions (env : BulkEnv) (items : List BulkItem) : BulkIngestResponse :=
  let results := bulkResults env 0 items
  { total_questions := items.length
  , successful := (results.filter (fun r => r.success)).length
  , failed := (results.filter (fun r => !r.success)).length
  , results := results
  , processing_time_ms := env.totalElapsedMs }

/-! ## The Redis cache adapter (`redis.ts` lines 119-167)

Values are stored as `{data, expires_at}` envelopes; `JSON.stringify` /
`JSON.parse` round-trips the envelope identically and is not modeled.  The
underlying store's own `EX` expiry belongs to the external Redis server and
is out of scope; the adapter re-checks `expires_at` itself on every read. -/

structure CacheEntry (V : Type) where
  data : V
  expires_at : Nat
deriving DecidableEq, Repr

structure RedisState (V : Type) where
  connected : Bool
  store : List (String × CacheEntry V)
deriving DecidableEq, Repr

def storeLookup {V : Type} (store : List (String × CacheEntry V)) (key : String) :
    Option (CacheEntry V) :=
  match store with
  | [] => none
  | (k, e) :: rest => if k = key then some e else storeLookup rest key

def storeErase {V : Type} : List (String × CacheEntry V) → String →
    List (String × CacheEntry V)
  | [], _ => []
  | (k, e) :: rest, key =>
    if k = key then storeErase rest key else (k, e) :: storeErase rest key

def storeWrite {V : Type} (store : List (String × CacheEntry V)) (key : String)
    (e : CacheEntry V) : List (String × CacheEntry V) :=
  (key, e) :: storeErase store key

/-- `RedisService.get` at the instant `nowMs`: a stored entry is served
unless `nowMs > expires_at`, in which case the stale entry is deleted and the
read misses.  Disconnected adapters always miss. -/
def redisGet {V : Type} (nowMs : Nat) (st : RedisState V) (key : String) :
    Option V × RedisState V :=
  if ¬ st.connected then (none, st)
  else
    match storeLookup st.store key with
    | none => (none, st)
    | some entry =>
      if nowMs > entry.expires_at then (none, { st with store := storeErase st.store key })
      else (some entry.data, st)

/-- `RedisService.set` at the instant `nowMs`: store the envelope with
`expires_at = nowMs + ttlSeconds * 1000`.  Disconnected adapters no-op and
report `false`. -/
def redisSet {V : Type} (nowMs : Nat) (st : RedisState V) (key : String) (value : V)
    (ttlSeconds : Nat) : Bool × RedisState V :=
  if ¬ st.connected then (false, st)
  else (true, { st with store := storeWrite st.store key ⟨value, nowMs + ttlSeconds * 1000⟩ })

/-! ## Step-numbering predicates -/

/-- The steps are numbered `n, n + 1, n + 2, ...` in order. -/
def stepsNumberedFrom (n : ℚ) : List AIStep → Bool
  | [] => true
  | s :: rest => decide (s.step_number = n) && stepsNumberedFrom (n + 1) rest

/-- Step numbers are 1-based, strictly increasing and gap-free. -/
def stepNumbersContiguous (steps : List AIStep) : Bool :=
  stepsNumberedFrom 1 steps

/-! ## Concrete instances used by the counterexamples and witnesses -/

/-- A previously computed answer sitting in the question-text cache. -/
def cachedAnswerFixture : AnswerResponse :=
  { id := "q-old", question := "What is 2+2?", question_type := "arithmetic"
  , status := "completed"
  , steps := [{ step_number := 1, description := "Add the numbers"
              , mathematical_expression := some "2 + 2 = 4"
              , reasoning := "Two plus two makes four" }]
  , final_answer := "4", explanation := "Simple addition"
  , created_at := "2024-01-01T00:00:00.000Z", processing_time_ms := 120 }

/-- A service environment whose cache holds `cachedAnswerFixture` for the
fixture question and whose INSERTs return rows. -/
def hitEnv : ServiceEnv :=
  { cacheGet := fun key =>
      if key = generateQuestionCacheKey "What is 2+2?" then some cachedAnswerFixture else none
  , createQuestionReturnsRow := true
  , freshQuestionId := "q-new"
  , freshAnswerId := "a-new"
  , answerInsertReturnsRow := true
  , solverResult := .error "solver is never reached on the cache-hit path"
  , solveDurationMs := 0
  , nowIso := "2024-01-02T00:00:00.000Z" }

/-- `hitEnv` with the question INSERT returning no row. -/
def hitEnvNoRow : ServiceEnv := { hitEnv with createQuestionReturnsRow := false }

/-- A cold-cache environment whose solver call throws. -/
def failEnv : ServiceEnv :=
  { cacheGet := fun _ => none
  , createQuestionReturnsRow := true
  , freshQuestionId := "q-new"
  , freshAnswerId := "a-new"
  , answerInsertReturnsRow := true
  , solverResult := .error "model provider exploded"
  , solveDurationMs := 7
  , nowIso := "2024-01-02T00:00:00.000Z" }

def dbFixture : Db := { users := ["user-1"], questions := [], answers := [] }

/-- A payload the validator accepts although its step description and
reasoning are empty (and with the `ai_model_used` string the validator
demands beyond the specified fields). -/
def emptyTextPayload : Json :=
  .obj [ ("steps", .arr [ .obj [ ("step_number", .num 1)
                               , ("description", .str "")
                               , ("reasoning", .str "") ] ])
       , ("final_answer", .str ""), ("explanation", .str "")
       , ("confidence_score", .num 1), ("ai_model_used", .str "mock") ]

/-- A schema-valid cloud payload whose single step is numbered 7. -/
def oddNumberedPayload : Json :=
  .obj [ ("steps", .arr [ .obj [ ("step_number", .num 7)
                               , ("description", .str "only step")
                               , ("reasoning", .str "numbered oddly") ] ])
       , ("final_answer", .str "42"), ("explanation", .str "done")
       , ("confidence_score", .num 1), ("ai_model_used", .str "whatever") ]

/-- A configured cloud backend returning `oddNumberedPayload`. -/
def oddNumberedEnv : AIEnv :=
  { openaiConfigured := true, cloud := .payload oddNumberedPayload
  , localResp := .failure, ollamaModel := "llama3:latest" }

/-- A three-item bulk batch whose middle item names a nonexistent user. -/
def bulkItemsFixture : List BulkItem :=
  [ { question := "q1", user_id := "u1", question_type := "algebra" }
  , { question := "q2", user_id := "ghost", question_type := "algebra" }
  , { question := "q3", user_id := "u3", question_type := "algebra" } ]

def bulkEnvFixture : BulkEnv :=
  { users := ["u1", "u3"]
  , itemCreateReturnsRow := fun _ => true
  , itemQuestionId := fun i => "bulk-q" ++ natRepr i
  , itemSolverResult := fun _ => .ok (getMockResponse "q" "other")
  , itemElapsedMs := fun _ => 5
  , totalElapsedMs := 50 }

/-- An empty, connected cache, and the state after `set("k", 42, 1)` at
epoch instant 0 (stored expiry instant 1000). -/
def redisFixture : RedisState Nat := { connected := true, store := [] }

def redisFixtureAfterSet : RedisState Nat := (redisSet 0 redisFixture "k" 42 1).2

/-- A cached history page for a user missing from the user store. -/
def historyFixture : UserHistory :=
  { user_id := "user-gone", questions := [], total_count := 3 }

def historyEnvFixture : HistoryEnv :=
  { historyCacheGet := fun key =>
      if key = generateUserHistoryCacheKey "user-gone" 1 then some historyFixture else none
  , dbHistory := fun _ _ _ => none }

/-- The acceptance condition exactly as the specification states it, written
from its words for comparison with `validateAIResponse`: a non-empty step
list whose steps have a numeric index, a non-empty description and non-empty
reasoning, plus a final-answer string, an explanation string and a numeric
confidence. -/
def claimedValidPayload (j : Json) : Bool :=
  (match j.getField "steps" with
   | some (.arr steps) =>
     decide (steps.length > 0) && steps.all (fun s =>
       isNumField (s.getField "step_number") &&
       (match s.getField "description" with
        | some (.str d) => decide (d ≠ "")
        | _ => false) &&
       (match s.getField "reasoning" with
        | some (.str r) => decide (r ≠ "")
        | _ => false))
   | _ => false) &&
  isStrField (j.getField "final_answer") &&
  isStrField (j.getField "explanation") &&
  isNumField (j.getField "confidence_score")

/-- The amended acceptance condition: a non-empty step list whose steps carry
a numeric index and string — possibly empty — description and reasoning, a
final-answer string, an explanation string, a numeric confidence, and
additionally a string model identifier. -/
def AmendedAccepts (j : Json) : Prop :=
  ∃ steps : List Json, j.getField "steps" = some (.arr steps) ∧ steps ≠ [] ∧
    (∀ s ∈ steps,
      (∃ q : ℚ, s.getField "step_number" = some (.num q)) ∧
      (∃ d : String, s.getField "description" = some (.str d)) ∧
      (∃ r : String, s.getField "reasoning" = some (.str r))) ∧
    (∃ f : String, j.getField "final_answer" = some (.str f)) ∧
    (∃ e : String, j.getField "explanation" = some (.str e)) ∧
    (∃ c : ℚ, j.getField "confidence_score" = some (.num c)) ∧
    (∃ m : String, j.getField "ai_model_used" = some (.str m))

/-! # Theorems -/

/-! ## Helper lemmas about the store -/

theorem map_updateStatus_of_fresh (rows : List QuestionRow) (qid st : String)
    (h : ∀ q ∈ rows, q.id ≠ qid) :
    rows.map (fun q => if q.id = qid then { q with status := st } else q) = rows := by
  induction rows with
  | nil => rfl
  | cons a t ih =>
    simp only [List.map_cons]
    rw [if_neg (h a (by simp)), ih (fun q hq => h q (by simp [hq]))]

theorem updateStatus_insert_fresh (db : Db) (qid uid qtext qtype st0 st : String)
    (h : ∀ q ∈ db.questions, q.id ≠ qid) :
    (db.insertQuestion ⟨qid, uid, qtext, qtype, st0⟩).updateQuestionStatus qid st =
      db.insertQuestion ⟨qid, uid, qtext, qtype, st⟩ := by
  simp [Db.insertQuestion, Db.updateQuestionStatus, List.map_append,
    map_updateStatus_of_fresh db.questions qid st h]

/-! ## C10: history served from cache skips the user check -/

/-- C10: `getUserHistory` verifies user existence only on a cache miss: when
the (userId, page) history key is cached, the cached history is returned with
no user-store lookup, and the call cannot fail with a user-not-found error —
whatever the user store holds. -/
theorem getUserHistory_cache_hit (env : HistoryEnv) (users : List String) (userId : String)
    (page limit : Nat) (h : UserHistory)
    (hhit : env.historyCacheGet (generateUserHistoryCacheKey userId page) = some h) :
    (getUserHistory env users userId page limit).result = .ok (some h) ∧
    (getUserHistory env users userId page limit).userLookups = 0 := by
  simp [getUserHistory, hhit]

/-- C10 witness: a cached history page for a user absent from the user store
is still served, with zero user-store lookups. -/
theorem getUserHistory_cache_hit_witness :
    (getUserHistory historyEnvFixture [] "user-gone" 1 10).result = .ok (some historyFixture) ∧
    (getUserHistory historyEnvFixture [] "user-gone" 1 10).userLookups = 0 :=
  getUserHistory_cache_hit historyEnvFixture [] "user-gone" 1 10 historyFixture (by decide)

/-! ## C2: the cache-hit path of `submitQuestion` -/

/-- C2 counterexample: on a cache hit the new Question row is inserted with
status `pending` and no later transition touches it — the claim's final
status `completed` is false on the code.  (The answer-repository INSERT used
by the service performs no status update.) -/
theorem submitQuestion_cache_hit_status_pending :
    (submitQuestion hitEnv dbFixture "What is 2+2?" "user-1" "arithmetic").db.questions.map
        QuestionRow.status = ["pending"] ∧
    (submitQuestion hitEnv dbFixture "What is 2+2?" "user-1" "arithmetic").solverCalls = 0 := by
  decide

/-- C2 (amended): on a cache hit `submitQuestion` does not invoke the
Solver, creates a new Question row (which keeps status `pending`), persists
an Answer row copied from the cached result, and returns the cached solution
tagged with the new Question's id and the current timestamp. -/
theorem submitQuestion_cache_hit (env : ServiceEnv) (db : Db)
    (question userId questionType : String) (cached : AnswerResponse)
    (huser : db.users.contains userId = true)
    (hhit : env.cacheGet (generateQuestionCacheKey question) = some cached)
    (hrow : env.createQuestionReturnsRow = true) :
    (submitQuestion env db question userId questionType).solverCalls = 0 ∧
    (submitQuestion env db question userId questionType).db.questions =
      db.questions ++ [{ id := env.freshQuestionId, user_id := userId
                       , question_text := question, question_type := questionType
                       , status := "pending" }] ∧
    (submitQuestion env db question userId questionType).db.answers =
      db.answers ++ [{ id := env.freshAnswerId, question_id := env.freshQuestionId
                     , steps := cached.steps, final_answer := cached.final_answer
                     , explanation := cached.explanation
                     , processing_time_ms := cached.processing_time_ms
                     , ai_model_used := "gpt-4", created_at := env.nowIso }] ∧
    (submitQuestion env db question userId questionType).result =
      .ok (.answer { cached with id := env.freshQuestionId, created_at := env.nowIso }) := by
  have huser2 : userId ∈ db.users := by simpa using huser
  simp [submitQuestion, huser2, hhit, hrow, Db.insertQuestion, Db.insertAnswer]

/-- C2 witness: the amended cache-hit behavior at the concrete fixture. -/
theorem submitQuestion_cache_hit_witness :
    (submitQuestion hitEnv dbFixture "What is 2+2?" "user-1" "arithmetic").result =
      .ok (.answer { cachedAnswerFixture with
        id := "q-new", created_at := "2024-01-02T00:00:00.000Z" }) :=
  (submitQuestion_cache_hit hitEnv dbFixture "What is 2+2?" "user-1" "arithmetic"
    cachedAnswerFixture (by decide) (by decide) (by decide)).2.2.2

/-! ## C9: cache hit with a row-less Question INSERT -/

/-- C9: when the question INSERT returns no row on the cache-hit path, the
cached solution is still returned with its id set to the literal string
`cached` and a fresh timestamp, and neither a Question nor an Answer row is
persisted. -/
theorem submitQuestion_cache_hit_no_row (env : ServiceEnv) (db : Db)
    (question userId questionType : String) (cached : AnswerResponse)
    (huser : db.users.contains userId = true)
    (hhit : env.cacheGet (generateQuestionCacheKey question) = some cached)
    (hnorow : env.createQuestionReturnsRow = false) :
    (submitQuestion env db question userId questionType).result =
      .ok (.answer { cached with id := "cached", created_at := env.nowIso }) ∧
    (submitQuestion env db question userId questionType).db = db ∧
    (submitQuestion env db question userId questionType).solverCalls = 0 := by
  have huser2 : userId ∈ db.users := by simpa using huser
  simp [submitQuestion, huser2, hhit, hnorow]

/-- C9 witness: the concrete row-less cache hit. -/
theorem submitQuestion_cache_hit_no_row_witness :
    (submitQuestion hitEnvNoRow dbFixture "What is 2+2?" "user-1" "arithmetic").result =
      .ok (.answer { cachedAnswerFixture with
        id := "cached", created_at := "2024-01-02T00:00:00.000Z" }) :=
  (submitQuestion_cache_hit_no_row hitEnvNoRow dbFixture "What is 2+2?" "user-1" "arithmetic"
    cachedAnswerFixture (by decide) (by decide) (by decide)).1

/-! ## C5: a solver exception inside `submitQuestion` -/

/-- C5: if the solver call throws inside `submitQuestion`, the Question's
persisted status becomes `failed` while the returned payload is the pending
placeholder claiming status `processing`, and the error does not cross the
workflow boundary. -/
theorem submitQuestion_solver_failure (env : ServiceEnv) (db : Db)
    (question userId questionType msg : String)
    (huser : db.users.contains userId = true)
    (hmiss : env.cacheGet (generateQuestionCacheKey question) = none)
    (hrow : env.createQuestionReturnsRow = true)
    (hsolver : env.solverResult = .error msg)
    (hfresh : ∀ q ∈ db.questions, q.id ≠ env.freshQuestionId) :
    (submitQuestion env db question userId questionType).result =
      .ok (.pending { id := env.freshQuestionId, status := "processing"
                    , message := some pendingMessage }) ∧
    (submitQuestion env db question userId questionType).db.questions =
      db.questions ++ [{ id := env.freshQuestionId, user_id := userId
                       , question_text := question, question_type := questionType
                       , status := "failed" }] ∧
    (submitQuestion env db question userId questionType).db.answers = db.answers := by
  have h1 := updateStatus_insert_fresh db env.freshQuestionId userId question questionType
    "pending" "processing" hfresh
  have h2 := updateStatus_insert_fresh db env.freshQuestionId userId question questionType
    "processing" "failed" hfresh
  have huser2 : userId ∈ db.users := by simpa using huser
  simp only [submitQuestion, hmiss, hrow, hsolver]
  rw [h1, h2]
  simp [huser2, Db.insertQuestion]

/-- C5 witness: the concrete solver failure. -/
theorem submitQuestion_solver_failure_witness :
    (submitQuestion failEnv dbFixture "What is 2+2?" "user-1" "arithmetic").result =
      .ok (.pending { id := "q-new", status := "processing"
                    , message := some pendingMessage }) :=
  (submitQuestion_solver_failure failEnv dbFixture "What is 2+2?" "user-1" "arithmetic"
    "model provider exploded" (by decide) (by rfl) (by rfl) (by rfl)
    (by intro q hq; simp [dbFixture] at hq)).1

/-! ## C8: cache TTL round-trip -/

theorem storeLookup_erase {V : Type} (l : List (String × CacheEntry V)) (key : String) :
    storeLookup (storeErase l key) key = none := by
  induction l with
  | nil => rfl
  | cons p t ih =>
    obtain ⟨k, e⟩ := p
    by_cases h : k = key
    · simpa [storeErase, h] using ih
    · simpa [storeErase, storeLookup, h] using ih

/-- C8 counterexample: a `get` at exactly the stored expiry instant is a hit,
not a miss — `set("k", 42, 1s)` at instant 0 stores expiry 1000, and
`get("k")` at instant 1000 returns the value and leaves the entry in place,
while the claim demands a miss at or after the expiry instant. -/
theorem redisGet_at_expiry_hit :
    (redisGet 1000 redisFixtureAfterSet "k").1 = some 42 ∧
    storeLookup (redisGet 1000 redisFixtureAfterSet "k").2.store "k" ≠ none := by
  decide

/-- C8 (amended): on a connected adapter, `set(key, value, ttl)` at `t0`
followed by `get(key)` returns the stored value at any instant up to and
including the expiry instant `t0 + ttl·1000`, and strictly after the expiry
instant the read is a miss and the stale entry is deleted. -/
theorem redis_set_get_ttl {V : Type} (st : RedisState V) (key : String) (value : V)
    (ttlSeconds t1 t2 t0 : Nat) (hconn : st.connected = true) :
    (t1 ≤ t0 + ttlSeconds * 1000 →
      (redisGet t1 (redisSet t0 st key value ttlSeconds).2 key).1 = some value) ∧
    (t0 + ttlSeconds * 1000 < t2 →
      (redisGet t2 (redisSet t0 st key value ttlSeconds).2 key).1 = none ∧
      storeLookup (redisGet t2 (redisSet t0 st key value ttlSeconds).2 key).2.store key =
        none) := by
  constructor
  · intro h1
    simp [redisSet, redisGet, hconn, storeWrite, storeLookup, Nat.not_lt.mpr h1]
  · intro h2
    simp [redisSet, redisGet, hconn, storeWrite, storeLookup, h2, storeErase,
      storeLookup_erase]

/-- C8 witness: the amended TTL round-trip at the fixture (hit at 500 and at
the expiry instant is covered by `t1 ≤ 1000`; miss and deletion at 1001). -/
theorem redis_set_get_ttl_witness :
    (redisGet 500 (redisSet 0 redisFixture "k" 42 1).2 "k").1 = some 42 ∧
    (redisGet 1001 (redisSet 0 redisFixture "k" 42 1).2 "k").1 = none := by
  have h := redis_set_get_ttl redisFixture "k" 42 1 500 1001 0 (by decide)
  exact ⟨h.1 (by omega), (h.2 (by omega)).1⟩

/-! ## C7: bulk ingest isolates per-item failures -/

theorem bulkResults_length (env : BulkEnv) (items : List BulkItem) (start : Nat) :
    (bulkResults env start items).length = items.length := by
  induction items generalizing start with
  | nil => rfl
  | cons a t ih => simp [bulkResults, ih]

theorem bulkResults_getElem (env : BulkEnv) (items : List BulkItem) (start i : Nat) :
    (bulkResults env start items)[i]? =
      (items[i]?).map (fun item => processBulkItem env (start + i) item) := by
  induction items generalizing start i with
  | nil => simp [bulkResults]
  | cons a t ih =>
    cases i with
    | zero => simp [bulkResults]
    | succ n =>
      have harith : start + 1 + n = start + (n + 1) := by omega
      simp [bulkResults, ih, harith]

theorem length_filter_success_split (l : List BulkIngestResult) :
    (l.filter (fun r => r.success)).length + (l.filter (fun r => !r.success)).length =
      l.length := by
  induction l with
  | nil => rfl
  | cons a t ih => cases h : a.success <;> simp [List.filter_cons, h] <;> omega

/-- C7: `bulkIngestQuestions` processes items independently: the aggregate
reports `total_questions` equal to the batch size, `successful + failed`
equal to the total, one result row per item, and an item whose user does not
exist yields a failed row carrying the `User not found` message, the item's
elapsed time and no question id — with every other item still processed (the
result function is total, so no item's failure reaches the batch caller). -/
theorem bulkIngest_isolates_failures (env : BulkEnv) (items : List BulkItem) :
    (bulkIngestQuestions env items).total_questions = items.length ∧
    (bulkIngestQuestions env items).results.length = items.length ∧
    (bulkIngestQuestions env items).successful + (bulkIngestQuestions env items).failed =
      (bulkIngestQuestions env items).total_questions ∧
    (∀ (i : Nat) (item : BulkItem), items[i]? = some item →
      env.users.contains item.user_id = false →
      (bulkIngestQuestions env items).results[i]? = some
        { question := item.question, success := false, question_id := none
        , error := some "User not found", processing_time_ms := env.itemElapsedMs i }) := by
  refine ⟨rfl, bulkResults_length env items 0, ?_, ?_⟩
  · have h := length_filter_success_split (bulkResults env 0 items)
    simpa [bulkIngestQuestions, bulkResults_length] using h
  · intro i item hitem huser
    have h := bulkResults_getElem env items 0 i
    simp only [bulkIngestQuestions]
    rw [h, hitem]
    have huser2 : item.user_id ∉ env.users := by simpa using huser
    simp [processBulkItem, huser2]

/-- C7 witness: the scenario batch — item 2 names a nonexistent user; the
aggregate reports total 3, successful 2, failed 1, and item 2's entry carries
the user-not-found message with no question id. -/
theorem bulkIngest_isolates_failures_witness :
    (bulkIngestQuestions bulkEnvFixture bulkItemsFixture).results[1]? = some
      { question := "q2", success := false, question_id := none
      , error := some "User not found", processing_time_ms := 5 } ∧
    (bulkIngestQuestions bulkEnvFixture bulkItemsFixture).total_questions = 3 ∧
    (bulkIngestQuestions bulkEnvFixture bulkItemsFixture).successful = 2 ∧
    (bulkIngestQuestions bulkEnvFixture bulkItemsFixture).failed = 1 :=
  ⟨(bulkIngest_isolates_failures bulkEnvFixture bulkItemsFixture).2.2.2 1
      { question := "q2", user_id := "ghost", question_type := "algebra" }
      (by decide) (by decide),
   by decide, by decide, by decide⟩

/-! ## C1: the solver fallback chain is total -/

theorem validate_decode_steps (j : Json) (h : validateAIResponse j = true) :
    1 ≤ (decodeResponse j).steps.length := by
  simp only [validateAIResponse, Bool.and_eq_true] at h
  have hsteps := h.1.1.1.1.2
  clear h
  cases hs : j.getField "steps" with
  | none => rw [hs] at hsteps; simp at hsteps
  | some v =>
    cases v with
    | arr steps =>
      rw [hs] at hsteps
      simp only [Bool.and_eq_true, decide_eq_true_eq] at hsteps
      obtain ⟨hlen, -⟩ := hsteps
      simp [decodeResponse, hs]
      omega
    | null => rw [hs] at hsteps; simp at hsteps
    | bool b => rw [hs] at hsteps; simp at hsteps
    | num q => rw [hs] at hsteps; simp at hsteps
    | str s => rw [hs] at hsteps; simp at hsteps
    | obj fields => rw [hs] at hsteps; simp at hsteps

theorem getMockResponse_steps_length (question questionType : String) :
    (getMockResponse question questionType).steps.length = 3 := by
  unfold getMockResponse
  split <;> rfl

theorem solveWithOpenAI_steps (env : AIEnv) (r : OpenAIResponse)
    (h : solveWithOpenAI env = some r) : 1 ≤ r.steps.length := by
  cases hc : env.cloud with
  | failure =>
    simp only [solveWithOpenAI, hc] at h
    exact Option.noConfusion h
  | payload j =>
    simp only [solveWithOpenAI, hc] at h
    by_cases hv : validateAIResponse j = true
    · rw [if_pos hv] at h
      obtain rfl : ({ decodeResponse j with ai_model_used := "gpt-4" } : OpenAIResponse) = r :=
        Option.some.inj h
      exact validate_decode_steps j hv
    · rw [if_neg hv] at h
      exact Option.noConfusion h

theorem solveWithOllama_steps (env : AIEnv) (question questionType : String)
    (r : OpenAIResponse) (h : solveWithOllama env question questionType = some r) :
    1 ≤ r.steps.length := by
  cases hc : env.localResp with
  | failure =>
    simp only [solveWithOllama, hc] at h
    exact Option.noConfusion h
  | jsonPayload j =>
    simp only [solveWithOllama, hc] at h
    by_cases hv : validateAIResponse j = true
    · rw [if_pos hv] at h
      obtain rfl : ({ decodeResponse j with ai_model_used := env.ollamaModel } : OpenAIResponse)
          = r := Option.some.inj h
      exact validate_decode_steps j hv
    · rw [if_neg hv] at h
      exact Option.noConfusion h
  | prose text =>
    simp only [solveWithOllama, hc] at h
    by_cases hv : validateStructuredResponse
        (convertTextToStructuredResponse text question questionType env.ollamaModel) = true
    · rw [if_pos hv] at h
      obtain rfl : ({ convertTextToStructuredResponse text question questionType env.ollamaModel
          with ai_model_used := env.ollamaModel } : OpenAIResponse) = r := Option.some.inj h
      simp only [validateStructuredResponse, decide_eq_true_eq] at hv
      exact hv
    · rw [if_neg hv] at h
      exact Option.noConfusion h

/-- C1: for every question text and category and every backend environment,
the solver returns a structured solution with at least one step; the
embedding is a total function, so no path raises to the caller, and when the
cloud and local providers both fail the deterministic mock is returned. -/
theorem solveMathProblem_total (env : AIEnv) (question questionType : String) :
    1 ≤ (solveMathProblem env question questionType).steps.length := by
  have hmock : 1 ≤ (getMockResponse question questionType).steps.length := by
    rw [getMockResponse_steps_length]; omega
  have hvia : ∀ x : Option OpenAIResponse, x = solveWithOllama env question questionType →
      1 ≤ (match x with
           | some r => r
           | none => getMockResponse question questionType).steps.length := by
    intro x hx
    cases x with
    | some r => exact solveWithOllama_steps env question questionType r hx.symm
    | none => exact hmock
  unfold solveMathProblem
  by_cases hconf : env.openaiConfigured = true
  · rw [if_pos hconf]
    cases ho : solveWithOpenAI env with
    | some r => exact solveWithOpenAI_steps env r ho
    | none => exact hvia _ rfl
  · rw [if_neg hconf]
    exact hvia _ rfl

/-! ## C3: what the schema validation accepts -/

theorem isStrField_iff (o : Option Json) :
    isStrField o = true ↔ ∃ s : String, o = some (.str s) := by
  cases o with
  | none => simp [isStrField]
  | some v => cases v <;> simp [isStrField]

theorem isNumField_iff (o : Option Json) :
    isNumField o = true ↔ ∃ q : ℚ, o = some (.num q) := by
  cases o with
  | none => simp [isNumField]
  | some v => cases v <;> simp [isNumField]

theorem validStepField_iff (s : Json) :
    validStepField s = true ↔
      (∃ q : ℚ, s.getField "step_number" = some (.num q)) ∧
      (∃ d : String, s.getField "description" = some (.str d)) ∧
      (∃ r : String, s.getField "reasoning" = some (.str r)) := by
  simp [validStepField, Bool.and_eq_true, isNumField_iff, isStrField_iff, and_assoc]

theorem getField_some_truthy (j : Json) (k : String) (v : Json)
    (h : j.getField k = some v) : j.truthy = true := by
  cases j <;> simp [Json.getField, Json.truthy] at h ⊢

theorem stepsField_iff (j : Json) :
    (match j.getField "steps" with
     | some (.arr steps) => decide (steps.length > 0) && steps.all validStepField
     | _ => false) = true ↔
      ∃ steps : List Json, j.getField "steps" = some (.arr steps) ∧ steps ≠ [] ∧
        ∀ s ∈ steps, validStepField s = true := by
  cases hs : j.getField "steps" with
  | none => simp
  | some v => cases v <;> simp [List.all_eq_true, List.length_pos]

/-- C3 counterexample: `validateAIResponse` accepts a payload whose step
description and reasoning are empty strings, which the claimed condition
rejects — so the claimed if-and-only-if characterization is false.  (The
validator also demands a string `ai_model_used`, which the claimed condition
does not mention.) -/
theorem validation_accepts_empty_texts :
    validateAIResponse emptyTextPayload = true ∧
    claimedValidPayload emptyTextPayload = false := by
  decide

/-- C3 (amended): the validator accepts a payload exactly when it carries a
non-empty step list whose steps have a numeric index and string — possibly
empty — description and reasoning, a final-answer string, an explanation
string, a numeric confidence, and a string model identifier. -/
theorem validateAIResponse_iff_amended (j : Json) :
    validateAIResponse j = true ↔ AmendedAccepts j := by
  constructor
  · intro h
    simp only [validateAIResponse, Bool.and_eq_true] at h
    obtain ⟨⟨⟨⟨⟨ht, hsteps⟩, hfa⟩, hex⟩, hcs⟩, hmu⟩ := h
    obtain ⟨steps, hs, hne, hall⟩ := (stepsField_iff j).mp hsteps
    exact ⟨steps, hs, hne, fun s hsm => (validStepField_iff s).mp (hall s hsm),
      (isStrField_iff _).mp hfa, (isStrField_iff _).mp hex,
      (isNumField_iff _).mp hcs, (isStrField_iff _).mp hmu⟩
  · rintro ⟨steps, hs, hne, hall, hfa, hex, hcs, hmu⟩
    simp only [validateAIResponse, Bool.and_eq_true]
    refine ⟨⟨⟨⟨⟨getField_some_truthy j "steps" (.arr steps) hs, ?_⟩,
      (isStrField_iff _).mpr hfa⟩, (isStrField_iff _).mpr hex⟩,
      (isNumField_iff _).mpr hcs⟩, (isStrField_iff _).mpr hmu⟩
    exact (stepsField_iff j).mpr
      ⟨steps, hs, hne, fun s hsm => (validStepField_iff s).mpr (hall s hsm)⟩

/-- C3 witness: the amended characterization instantiated at the concrete
accepted payload. -/
theorem validateAIResponse_iff_amended_witness :
    validateAIResponse emptyTextPayload = true ↔ AmendedAccepts emptyTextPayload :=
  validateAIResponse_iff_amended emptyTextPayload

/-! ## C6: step numbering across the backends -/

/-- C6 counterexample: a schema-valid cloud payload whose single step is
numbered 7 is returned by the solver unchanged, so a solution produced by the
cloud backend need not have 1-based contiguous step numbers. -/
theorem cloud_passthrough_not_contiguous :
    stepNumbersContiguous (solveMathProblem oddNumberedEnv "2 + 2" "other").steps = false := by
  decide

/-- C6 (amended): solutions built by the offline mock and by the
prose-to-structure synthesis always carry 1-based, strictly increasing,
gap-free step numbers; solutions passed through from accepted cloud or local
JSON payloads only have numeric step numbers, preserved as sent. -/
theorem algebraSteps_contiguous (equation varName : String) (coefD constD resD : List Char) :
    stepNumbersContiguous (algebraSteps equation varName coefD constD resD) = true := by
  norm_num [algebraSteps, stepNumbersContiguous, stepsNumberedFrom]

theorem mock_and_synthesis_steps_contiguous :
    (∀ question questionType,
      stepNumbersContiguous (getMockResponse question questionType).steps = true) ∧
    (∀ cleanText question,
      stepNumbersContiguous (createCleanSteps cleanText question) = true) := by
  constructor
  · intro question questionType
    unfold getMockResponse
    split <;> · simp [stepNumbersContiguous, stepsNumberedFrom]; norm_num
  · intro cleanText question
    unfold createCleanSteps
    split
    · split
      · rfl
      · split <;>
        · split
          · exact algebraSteps_contiguous _ _ _ _ _
          · rfl
    · split
      · simp [stepNumbersContiguous, stepsNumberedFrom]; norm_num
      · simp [stepNumbersContiguous, stepsNumberedFrom]; norm_num

/-! ## C4: the linear-equation synthesis

The lemmas below establish the answer read-back: the last synthesized step's
expression is `<variable> = <number>`, and the two regex probes of
`extractFinalAnswerFromSteps` recover exactly the printed number from it. -/

theorem uint32_toBitVec_toNat (x : UInt32) : x.toBitVec.toNat = x.toNat := rfl

theorem isAlpha_val (c : Char) (h : c.isAlpha = true) :
    (65 ≤ c.val.toNat ∧ c.val.toNat ≤ 90) ∨ (97 ≤ c.val.toNat ∧ c.val.toNat ≤ 122) := by
  simp only [Char.isAlpha, Char.isUpper, Char.isLower, Bool.or_eq_true, Bool.and_eq_true,
    decide_eq_true_eq, Char.le_def, ge_iff_le, UInt32.le_def, Fin.le_def, BitVec.le_def,
    uint32_toBitVec_toNat] at h
  have h65 : (65 : UInt32).toNat = 65 := rfl
  have h90 : (90 : UInt32).toNat = 90 := rfl
  have h97 : (97 : UInt32).toNat = 97 := rfl
  have h122 : (122 : UInt32).toNat = 122 := rfl
  omega

theorem isAlpha_not_numChar (c : Char) (h : c.isAlpha = true) : isNumChar c = false := by
  have hb := isAlpha_val c h
  simp only [isNumChar, Char.isDigit, Bool.or_eq_false_iff, Bool.and_eq_false_iff,
    decide_eq_false_iff_not, Char.le_def, ge_iff_le, UInt32.le_def, Fin.le_def, BitVec.le_def,
    uint32_toBitVec_toNat, not_le, Char.ext_iff, UInt32.ext_iff]
  have h48 : (48 : UInt32).toNat = 48 := rfl
  have h57 : (57 : UInt32).toNat = 57 := rfl
  have hdot : ('.').val.toNat = 46 := rfl
  have hdash : ('-').val.toNat = 45 := rfl
  omega

theorem isAlpha_not_spaceChar (c : Char) (h : c.isAlpha = true) : isSpaceChar c = false := by
  have hb := isAlpha_val c h
  simp only [isSpaceChar, Char.isWhitespace, Bool.or_eq_false_iff, decide_eq_false_iff_not,
    Char.ext_iff, UInt32.ext_iff]
  have h1 : (' ').val.toNat = 32 := rfl
  have h2 : ('\t').val.toNat = 9 := rfl
  have h3 : ('\r').val.toNat = 13 := rfl
  have h4 : ('\n').val.toNat = 10 := rfl
  omega

theorem numChar_val (c : Char) (h : isNumChar c = true) :
    (48 ≤ c.val.toNat ∧ c.val.toNat ≤ 57) ∨ c.val.toNat = 46 ∨ c.val.toNat = 45 := by
  simp only [isNumChar, Char.isDigit, Bool.or_eq_true, Bool.and_eq_true, decide_eq_true_eq,
    Char.le_def, ge_iff_le, UInt32.le_def, Fin.le_def, BitVec.le_def, uint32_toBitVec_toNat,
    Char.ext_iff, UInt32.ext_iff] at h
  have h48 : (48 : UInt32).toNat = 48 := rfl
  have h57 : (57 : UInt32).toNat = 57 := rfl
  have hdot : ('.').val.toNat = 46 := rfl
  have hdash : ('-').val.toNat = 45 := rfl
  omega

theorem numChar_not_x (c : Char) (h : isNumChar c = true) : c ≠ 'x' ∧ c ≠ 'X' := by
  have hb := numChar_val c h
  have hx : ('x').val.toNat = 120 := rfl
  have hX : ('X').val.toNat = 88 := rfl
  constructor <;> intro hc <;> subst hc <;> omega

theorem numChar_not_space (c : Char) (h : isNumChar c = true) : isSpaceChar c = false := by
  have hb := numChar_val c h
  simp only [isSpaceChar, Char.isWhitespace, Bool.or_eq_false_iff, decide_eq_false_iff_not,
    Char.ext_iff, UInt32.ext_iff]
  have h1 : (' ').val.toNat = 32 := rfl
  have h2 : ('\t').val.toNat = 9 := rfl
  have h3 : ('\r').val.toNat = 13 := rfl
  have h4 : ('\n').val.toNat = 10 := rfl
  omega

theorem digitChar_isDigit (d : Nat) : (digitChar d).isDigit = true := by
  unfold digitChar
  split <;> decide

theorem natDigitsGo_all_digit (fuel n : Nat) :
    ∀ c ∈ natDigitsGo fuel n, c.isDigit = true := by
  induction fuel generalizing n with
  | zero =>
    intro c hc
    simp only [natDigitsGo, List.mem_singleton] at hc
    subst hc
    exact digitChar_isDigit _
  | succ fuel ih =>
    intro c hc
    unfold natDigitsGo at hc
    split at hc
    · simp only [List.mem_singleton] at hc
      subst hc
      exact digitChar_isDigit _
    · rw [List.mem_append] at hc
      rcases hc with hc | hc
      · exact ih _ c hc
      · simp only [List.mem_singleton] at hc
        subst hc
        exact digitChar_isDigit _

theorem natDigitsGo_ne_nil (fuel n : Nat) : natDigitsGo fuel n ≠ [] := by
  cases fuel with
  | zero => simp [natDigitsGo]
  | succ fuel =>
    unfold natDigitsGo
    split
    · simp
    · simp

theorem isDigit_isNumChar (c : Char) (h : c.isDigit = true) : isNumChar c = true := by
  simp [isNumChar, h]

theorem intRepr_data_numChar (n : Int) : ∀ c ∈ (intRepr n).data, isNumChar c = true := by
  unfold intRepr natRepr natDigits
  split
  · intro c hc
    rw [show ("-" ++ String.mk (natDigitsGo n.natAbs n.natAbs)).data =
        '-' :: natDigitsGo n.natAbs n.natAbs from rfl] at hc
    rcases List.mem_cons.mp hc with rfl | hc
    · decide
    · exact isDigit_isNumChar c (natDigitsGo_all_digit _ _ c hc)
  · intro c hc
    rw [show (String.mk (natDigitsGo n.natAbs n.natAbs)).data =
        natDigitsGo n.natAbs n.natAbs from rfl] at hc
    exact isDigit_isNumChar c (natDigitsGo_all_digit _ _ c hc)

theorem intRepr_data_ne_nil (n : Int) : (intRepr n).data ≠ [] := by
  unfold intRepr natRepr natDigits
  split
  · rw [show ("-" ++ String.mk (natDigitsGo n.natAbs n.natAbs)).data =
        '-' :: natDigitsGo n.natAbs n.natAbs from rfl]
    simp
  · rw [show (String.mk (natDigitsGo n.natAbs n.natAbs)).data =
        natDigitsGo n.natAbs n.natAbs from rfl]
    exact natDigitsGo_ne_nil _ _

/-! Scanning evaluation lemmas. -/

theorem findFirstMatch_cons_none {α : Type} (m : List Char → Option α) (a : Char)
    (t : List Char) (h : m (a :: t) = none) :
    findFirstMatch m (a :: t) = findFirstMatch m t := by
  conv_lhs => unfold findFirstMatch
  rw [h]

theorem findFirstMatch_cons_some {α : Type} (m : List Char → Option α) (a : Char)
    (t : List Char) (x : α) (h : m (a :: t) = some x) :
    findFirstMatch m (a :: t) = some x := by
  conv_lhs => unfold findFirstMatch
  rw [h]

theorem matchNumRunAt_neg (a : Char) (t : List Char) (h : isNumChar a = false) :
    matchNumRunAt (a :: t) = none := by
  simp [matchNumRunAt, takeWhileSplit, List.takeWhile_cons, h]

theorem matchNumRunAt_all (s : List Char) (hne : s ≠ []) (hnum : ∀ ch ∈ s, isNumChar ch = true) :
    matchNumRunAt s = some s := by
  unfold matchNumRunAt takeWhileSplit
  rw [List.takeWhile_eq_self_iff.mpr hnum]
  cases s with
  | nil => cases hne rfl
  | cons a t => simp

theorem matchXEqAt_neg (a : Char) (t : List Char) (h1 : a ≠ 'x') (h2 : a ≠ 'X') :
    matchXEqAt (a :: t) = none := by
  simp [matchXEqAt, h1, h2]

theorem findX_none_of_no_x (l : List Char) (h : ∀ ch ∈ l, ch ≠ 'x' ∧ ch ≠ 'X') :
    findFirstMatch matchXEqAt l = none := by
  induction l with
  | nil => rfl
  | cons a t ih =>
    have ha := h a (List.mem_cons_self a t)
    rw [findFirstMatch_cons_none _ _ _ (matchXEqAt_neg a t ha.1 ha.2)]
    exact ih (fun ch hch => h ch (List.mem_cons_of_mem a hch))

theorem matchXEqAt_hit (c : Char) (hx : c = 'x' ∨ c = 'X') (a : Char) (t : List Char)
    (hspace : isSpaceChar a = false) (hnum : ∀ ch ∈ a :: t, isNumChar ch = true) :
    matchXEqAt (c :: ' ' :: '=' :: ' ' :: a :: t) = some (a :: t) := by
  have e1 : isSpaceChar ' ' = true := rfl
  have e2 : isSpaceChar '=' = false := rfl
  have hcx : (decide (c = 'x') || decide (c = 'X')) = true := by
    rcases hx with rfl | rfl <;> simp
  simp only [matchXEqAt, hcx, takeWhileSplit, List.takeWhile_cons, List.dropWhile_cons,
    e1, e2, hspace, eq_self_iff_true, if_true, if_false, ite_true, ite_false,
    Bool.false_eq_true]
  exact matchNumRunAt_all (a :: t) (by simp) hnum

/-- The answer read-back: the two probes of `extractFinalAnswerFromSteps`
applied to `<letter> = <numeric run>` recover exactly the numeric run. -/
theorem extractExprAnswer_var_eq_num (c : Char) (s : List Char)
    (hnumc : isNumChar c = false) (hspacec : isSpaceChar c = false)
    (hne : s ≠ []) (hnum : ∀ ch ∈ s, isNumChar ch = true) :
    extractExprAnswer (String.mk (c :: ' ' :: '=' :: ' ' :: s)) = some (String.mk s) := by
  obtain ⟨a, t, rfl⟩ : ∃ a t, s = a :: t := by
    cases s with
    | nil => cases hne rfl
    | cons a t => exact ⟨a, t, rfl⟩
  have hsp_a : isSpaceChar a = false := numChar_not_space a (hnum a (by simp))
  have hdata : (String.mk (c :: ' ' :: '=' :: ' ' :: a :: t)).data =
      c :: ' ' :: '=' :: ' ' :: a :: t := rfl
  by_cases hx : c = 'x' ∨ c = 'X'
  · have hmx := matchXEqAt_hit c hx a t hsp_a hnum
    unfold extractExprAnswer
    rw [hdata, findFirstMatch_cons_some _ _ _ _ hmx]
    simp
  · push_neg at hx
    have e2 : isNumChar ' ' = false := rfl
    have e3 : isNumChar '=' = false := rfl
    have hX : findFirstMatch matchXEqAt (c :: ' ' :: '=' :: ' ' :: a :: t) = none := by
      refine findX_none_of_no_x _ ?_
      intro ch hch
      rcases List.mem_cons.mp hch with rfl | hch
      · exact hx
      · rcases List.mem_cons.mp hch with rfl | hch
        · exact ⟨by decide, by decide⟩
        · rcases List.mem_cons.mp hch with rfl | hch
          · exact ⟨by decide, by decide⟩
          · rcases List.mem_cons.mp hch with rfl | hch
            · exact ⟨by decide, by decide⟩
            · exact numChar_not_x ch (hnum ch hch)
    have hN : findFirstMatch matchNumRunAt (c :: ' ' :: '=' :: ' ' :: a :: t) =
        some (a :: t) := by
      rw [findFirstMatch_cons_none _ _ _ (matchNumRunAt_neg c _ hnumc),
        findFirstMatch_cons_none _ _ _ (matchNumRunAt_neg ' ' _ e2),
        findFirstMatch_cons_none _ _ _ (matchNumRunAt_neg '=' _ e3),
        findFirstMatch_cons_none _ _ _ (matchNumRunAt_neg ' ' _ e2)]
      exact findFirstMatch_cons_some _ _ _ _ (matchNumRunAt_all (a :: t) (by simp) hnum)
    unfold extractExprAnswer
    rw [hdata, hX, hN]
    rfl

theorem jsNumToString_intCast (k : Int) : jsNumToString ((k : Int) : ℚ) = intRepr k := by
  simp [jsNumToString, Rat.den_intCast, Rat.num_intCast]

/-- C4 counterexample: a question that contains `3x + 2 = 14` but no solve
keyword takes the generic branch of the synthesis — two analysis steps and
the placeholder answer, not three algebra steps with answer `4`. -/
theorem synthesis_without_keyword :
    (convertTextToStructuredResponse "prose" "3x + 2 = 14" "algebra"
      "llama3:latest").steps.length = 2 ∧
    (convertTextToStructuredResponse "prose" "3x + 2 = 14" "algebra"
      "llama3:latest").final_answer = "See solution steps" := by
  decide

/-- C4 (amended): when the question contains a solve keyword and the
linear-equation pattern matches — coefficient, constant and result digits as
scanned, first letter of the question as the printed variable, nonzero
coefficient and exact division `result − constant = coefficient · k` — the
synthesis derives exactly 3 algebra steps, and the final answer is the
decimal rendering of `k = (result − constant) / coefficient`, read back from
the last step's `variable = k` expression.  In particular
"Solve 3x + 2 = 14" yields `4` and "Solve 2y + 8 = 20" yields `6` (see the
witness). -/
theorem synthesis_linear_equation (text question questionType model : String)
    (eqChars coefD constD resD : List Char) (c : Char) (k : Int)
    (hkw : hasSolveKeyword question = true)
    (heq : findFirstMatch matchEquationAt question.data = some eqChars)
    (hvar : question.data.find? Char.isAlpha = some c)
    (hco : findFirstMatch matchCoefAt eqChars = some coefD)
    (hconst : findFirstMatch matchConstAt eqChars = some constD)
    (hres : findFirstMatch matchResultAt eqChars = some resD)
    (hplus : strIncludes (String.mk eqChars) "+" = true)
    (hcoef : (digitsToNat coefD : Int) ≠ 0)
    (hk : (digitsToNat resD : Int) - (digitsToNat constD : Int) =
      (digitsToNat coefD : Int) * k) :
    (convertTextToStructuredResponse text question questionType model).steps.length = 3 ∧
    (convertTextToStructuredResponse text question questionType model).final_answer =
      intRepr k := by
  have hcalpha : c.isAlpha = true := List.find?_some hvar
  have hsteps : createCleanSteps text question =
      algebraSteps (String.mk eqChars) (String.mk [c]) coefD constD resD := by
    simp [createCleanSteps, hkw, heq, hvar, hco, hconst, hres]
  have hc0q : ((digitsToNat coefD : Nat) : ℚ) ≠ 0 := by
    have : (digitsToNat coefD : Nat) ≠ 0 := by exact_mod_cast hcoef
    exact_mod_cast this
  have hcast : ((((digitsToNat resD : Int) - (digitsToNat constD : Int) : Int)) : ℚ) /
      ((digitsToNat coefD : Nat) : ℚ) = ((k : Int) : ℚ) := by
    rw [hk]
    push_cast
    exact mul_div_cancel_left₀ _ hc0q
  have hjs : jsNumToString
      ((((digitsToNat resD : Int) - (digitsToNat constD : Int) : Int) : ℚ) /
        ((digitsToNat coefD : Nat) : ℚ)) = intRepr k := by
    rw [hcast, jsNumToString_intCast]
  constructor
  · simp only [convertTextToStructuredResponse]
    rw [hsteps]
    simp [algebraSteps]
  · simp only [convertTextToStructuredResponse]
    rw [hsteps]
    have hlast : (algebraSteps (String.mk eqChars) (String.mk [c]) coefD constD
        resD).getLast? = some
        { step_number := 3
        , description := "Divide both sides by " ++ natRepr (digitsToNat coefD) ++
            " to solve for " ++ String.mk [c]
        , mathematical_expression := some (String.mk [c] ++ " = " ++
            jsNumToString ((((digitsToNat resD : Int) - (digitsToNat constD : Int) : Int) : ℚ) /
              ((digitsToNat coefD : Nat) : ℚ)))
        , reasoning := "We divide by " ++ natRepr (digitsToNat coefD) ++ " to get " ++
            String.mk [c] ++ " by itself" } := by
      simp [algebraSteps, hplus]
    unfold extractFinalAnswerFromSteps
    rw [hlast]
    simp only [Option.getD_some]
    rw [hjs]
    have hdata : (String.mk [c] ++ " = " ++ intRepr k) =
        String.mk (c :: ' ' :: '=' :: ' ' :: (intRepr k).data) := rfl
    rw [hdata, extractExprAnswer_var_eq_num c (intRepr k).data
      (isAlpha_not_numChar c hcalpha) (isAlpha_not_spaceChar c hcalpha)
      (intRepr_data_ne_nil k) (intRepr_data_numChar k)]

/-- C4 witness: the two instances named by the claim, with the solve keyword
present. -/
theorem synthesis_linear_equation_witness :
    (convertTextToStructuredResponse "prose" "Solve 3x + 2 = 14" "algebra"
      "llama3:latest").final_answer = "4" ∧
    (convertTextToStructuredResponse "prose" "Solve 2y + 8 = 20" "algebra"
      "llama3:latest").final_answer = "6" := by
  constructor
  · have h := synthesis_linear_equation "prose" "Solve 3x + 2 = 14" "algebra" "llama3:latest"
      ("3x + 2 = 14".data) ['3'] ['2'] ['1', '4'] 'S' 4
      (by decide) (by decide) (by decide) (by decide) (by decide) (by decide) (by decide)
      (by decide) (by decide)
    rw [h.2]
    decide
  · have h := synthesis_linear_equation "prose" "Solve 2y + 8 = 20" "algebra" "llama3:latest"
      ("2y + 8 = 20".data) ['2'] ['8'] ['2', '0'] 'S' 6
      (by decide) (by decide) (by decide) (by decide) (by decide) (by decide) (by decide)
      (by decide) (by decide)
    rw [h.2]
    decide

end MathTutor
